import Mathlib

/-!
Verification of the trader-bot scheduling and risk engine
(`src/risk_manager.py`, `src/poller.py`) against its specification.

Prices and monetary amounts are modelled as rationals, calendar dates as
naturals, elapsed time as rationals (seconds).  Python `try/except` blocks
that swallow an arithmetic error become `Option`; Python `int()` (truncation
toward zero) becomes `truncQ`.
-/

namespace TraderBot

/-- Trade side, mirroring the `"BUY"` / `"SELL"` transaction-type strings. -/
inductive Side where
  | buy
  | sell
deriving DecidableEq, Repr

/-- Configuration defaults from `config.py`. -/
structure Config where
  initialCapital : ℚ
  maxCapitalPerTrade : ℚ
  maxActiveTrades : ℕ
  maxDailyLosses : ℕ
  maxDailyDrawdown : ℚ
  minRiskReward : ℚ
deriving DecidableEq, Repr

/-- The default configuration values of `config.py`. -/
def defaultConfig : Config :=
  { initialCapital := 100000
    maxCapitalPerTrade := 1/100
    maxActiveTrades := 2
    maxDailyLosses := 3
    maxDailyDrawdown := 5/100
    minRiskReward := 3/2 }

/-- One entry of `daily_trades`, as built by `record_trade_outcome`. -/
structure TradeRecord where
  symbol : String
  entry_price : ℚ
  exit_price : ℚ
  quantity : ℤ
  transaction_type : Side
  pnl : ℚ
  pnl_pct : ℚ
  is_loss : Bool
deriving DecidableEq, Repr

/-- The mutable daily risk state owned by `RiskManager`. -/
structure RiskState where
  config : Config
  daily_trades : List TradeRecord
  daily_pnl : ℚ
  daily_loss_count : ℕ
  max_drawdown_today : ℚ
  start_of_day_capital : ℚ
  last_reset_date : ℕ
deriving DecidableEq, Repr

/-- `RiskManager.__init__`: fresh state on process start. -/
def RiskState.init (c : Config) (today : ℕ) : RiskState :=
  { config := c
    daily_trades := []
    daily_pnl := 0
    daily_loss_count := 0
    max_drawdown_today := 0
    start_of_day_capital := c.initialCapital
    last_reset_date := today }

/-- `RiskManager.get_current_capital`. -/
def get_current_capital (st : RiskState) : ℚ :=
  st.config.initialCapital + st.daily_pnl

/-- `RiskManager.reset_daily_metrics`.  The field assignments are sequenced
exactly as in the source: `daily_pnl` is zeroed before `start_of_day_capital`
is recomputed from `get_current_capital`. -/
def reset_daily_metrics (today : ℕ) (st : RiskState) : RiskState :=
  if today ≠ st.last_reset_date then
    let st := { st with daily_trades := [] }
    let st := { st with daily_pnl := 0 }
    let st := { st with daily_loss_count := 0 }
    let st := { st with max_drawdown_today := 0 }
    let st := { st with start_of_day_capital := get_current_capital st }
    { st with last_reset_date := today }
  else st

/-- Python `int()` applied to a rational: truncation toward zero. -/
def truncQ (q : ℚ) : ℤ :=
  if 0 ≤ q then ⌊q⌋ else ⌈q⌉

/-- `RiskManager.calculate_position_size`.  Returns `(quantity, actual_risk)`.
The optional `risk_amount` argument defaults to
`current_capital * max_capital_per_trade` when absent, as in the source. -/
def calculate_position_size (st : RiskState) (entry_price stop_loss : ℚ)
    (risk_amt : Option ℚ) : ℤ × ℚ :=
  let current_capital := get_current_capital st
  let risk_amount := risk_amt.getD (current_capital * st.config.maxCapitalPerTrade)
  let risk_per_share := |entry_price - stop_loss|
  if risk_per_share ≤ 0 then (0, 0)
  else
    let max_quantity := truncQ (risk_amount / risk_per_share)
    let max_value := (max_quantity : ℚ) * entry_price
    let max_capital_limit := current_capital * (9/10)
    let max_quantity :=
      if max_value > max_capital_limit then truncQ (max_capital_limit / entry_price)
      else max_quantity
    let actual_risk := (max_quantity : ℚ) * risk_per_share
    (max_quantity, actual_risk)

/-- The risk-manager state used in the module's own `__main__` test:
a fresh `RiskManager()` with the default configuration. -/
def demoState : RiskState := RiskState.init defaultConfig 0

lemma truncQ_of_nonneg (q : ℚ) (h : 0 ≤ q) : truncQ q = ⌊q⌋ := by
  simp [truncQ, h]

lemma truncQ_nonneg (q : ℚ) (h : 0 ≤ q) : 0 ≤ truncQ q := by
  rw [truncQ_of_nonneg q h]
  exact Int.floor_nonneg.mpr h

lemma truncQ_le (q : ℚ) (h : 0 ≤ q) : (truncQ q : ℚ) ≤ q := by
  rw [truncQ_of_nonneg q h]
  exact Int.floor_le q

/-- C1: `calculate_position_size` risks at most `capital * maxCapitalPerTrade`,
spends at most 90% of capital, returns `actual_risk = quantity * riskPerShare`;
on the documented scenario (capital 100000, 1% risk, entry 2500, stop 2450) it
returns `(20, 1000)`; and when entry = stop (riskPerShare ≤ 0) it returns
quantity 0. -/
theorem c1_calculate_position_size_bounds (st : RiskState) (entry stop : ℚ)
    (hcap : 0 < get_current_capital st)
    (hpct : 0 ≤ st.config.maxCapitalPerTrade)
    (hne : entry ≠ stop) :
    ((calculate_position_size st entry stop none).1 : ℚ) * |entry - stop| ≤
        get_current_capital st * st.config.maxCapitalPerTrade ∧
    ((calculate_position_size st entry stop none).1 : ℚ) * entry ≤
        get_current_capital st * (9/10) ∧
    (calculate_position_size st entry stop none).2 =
        ((calculate_position_size st entry stop none).1 : ℚ) * |entry - stop| ∧
    calculate_position_size demoState 2500 2450 none = (20, 1000) ∧
    (∀ (st' : RiskState) (e : ℚ), calculate_position_size st' e e none = (0, 0)) := by
  have hrps : 0 < |entry - stop| := abs_pos.mpr (sub_ne_zero.mpr hne)
  have heq : calculate_position_size st entry stop none =
      (if (truncQ (get_current_capital st * st.config.maxCapitalPerTrade / |entry - stop|) : ℚ)
            * entry > get_current_capital st * (9/10)
         then truncQ (get_current_capital st * (9/10) / entry)
         else truncQ (get_current_capital st * st.config.maxCapitalPerTrade / |entry - stop|),
       ((if (truncQ (get_current_capital st * st.config.maxCapitalPerTrade / |entry - stop|) : ℚ)
            * entry > get_current_capital st * (9/10)
         then truncQ (get_current_capital st * (9/10) / entry)
         else truncQ (get_current_capital st * st.config.maxCapitalPerTrade / |entry - stop|) : ℤ)
         : ℚ) * |entry - stop|) := by
    simp only [calculate_position_size, Option.getD, if_neg (not_le.mpr hrps)]
  have hra : 0 ≤ get_current_capital st * st.config.maxCapitalPerTrade :=
    mul_nonneg hcap.le hpct
  have hdiv0 : 0 ≤ get_current_capital st * st.config.maxCapitalPerTrade / |entry - stop| :=
    div_nonneg hra hrps.le
  have hq0n : 0 ≤ truncQ (get_current_capital st * st.config.maxCapitalPerTrade / |entry - stop|) :=
    truncQ_nonneg _ hdiv0
  have hq0rps : ((truncQ (get_current_capital st * st.config.maxCapitalPerTrade / |entry - stop|)
      : ℤ) : ℚ) * |entry - stop| ≤ get_current_capital st * st.config.maxCapitalPerTrade :=
    (le_div_iff₀ hrps).mp (truncQ_le _ hdiv0)
  refine ⟨?_, ?_, ?_, ?_, ?_⟩
  · rw [heq]
    by_cases hcase : (truncQ (get_current_capital st * st.config.maxCapitalPerTrade
        / |entry - stop|) : ℚ) * entry > get_current_capital st * (9/10)
    · simp only [if_pos hcase]
      have hlimpos : 0 < get_current_capital st * (9/10) := by positivity
      have hentry : 0 < entry := by
        by_contra hle
        push_neg at hle
        have h1 : ((truncQ (get_current_capital st * st.config.maxCapitalPerTrade
            / |entry - stop|) : ℤ) : ℚ) * entry ≤ 0 :=
          mul_nonpos_of_nonneg_of_nonpos (by exact_mod_cast hq0n) hle
        exact absurd (lt_trans hlimpos hcase) (not_lt.mpr h1)
      have hdiv1 : 0 ≤ get_current_capital st * (9/10) / entry :=
        div_nonneg hlimpos.le hentry.le
      have hqlt : ((truncQ (get_current_capital st * (9/10) / entry) : ℤ) : ℚ) ≤
          ((truncQ (get_current_capital st * st.config.maxCapitalPerTrade
            / |entry - stop|) : ℤ) : ℚ) := by
        have h2 : get_current_capital st * (9/10) / entry <
            ((truncQ (get_current_capital st * st.config.maxCapitalPerTrade
              / |entry - stop|) : ℤ) : ℚ) := (div_lt_iff₀ hentry).mpr hcase
        exact le_of_lt (lt_of_le_of_lt (truncQ_le _ hdiv1) h2)
      calc ((truncQ (get_current_capital st * (9/10) / entry) : ℤ) : ℚ) * |entry - stop|
          ≤ ((truncQ (get_current_capital st * st.config.maxCapitalPerTrade
            / |entry - stop|) : ℤ) : ℚ) * |entry - stop| :=
            mul_le_mul_of_nonneg_right hqlt hrps.le
        _ ≤ get_current_capital st * st.config.maxCapitalPerTrade := hq0rps
    · simp only [if_neg hcase]
      exact hq0rps
  · rw [heq]
    by_cases hcase : (truncQ (get_current_capital st * st.config.maxCapitalPerTrade
        / |entry - stop|) : ℚ) * entry > get_current_capital st * (9/10)
    · simp only [if_pos hcase]
      have hlimpos : 0 < get_current_capital st * (9/10) := by positivity
      have hentry : 0 < entry := by
        by_contra hle
        push_neg at hle
        have h1 : ((truncQ (get_current_capital st * st.config.maxCapitalPerTrade
            / |entry - stop|) : ℤ) : ℚ) * entry ≤ 0 :=
          mul_nonpos_of_nonneg_of_nonpos (by exact_mod_cast hq0n) hle
        exact absurd (lt_trans hlimpos hcase) (not_lt.mpr h1)
      have hdiv1 : 0 ≤ get_current_capital st * (9/10) / entry :=
        div_nonneg hlimpos.le hentry.le
      exact (le_div_iff₀ hentry).mp (truncQ_le _ hdiv1)
    · simp only [if_neg hcase]
      exact not_lt.mp hcase
  · rw [heq]
  · norm_num [calculate_position_size, get_current_capital, truncQ, demoState,
      RiskState.init, defaultConfig]
  · intro st' e
    simp [calculate_position_size]

/-- Witness for C1 at the concrete scenario inputs. -/
theorem c1_calculate_position_size_bounds_witness :
    ((calculate_position_size demoState 2500 2450 none).1 : ℚ) * |(2500 : ℚ) - 2450| ≤
      get_current_capital demoState * demoState.config.maxCapitalPerTrade :=
  (c1_calculate_position_size_bounds demoState 2500 2450
    (by norm_num [get_current_capital, demoState, RiskState.init, defaultConfig])
    (by norm_num [demoState, RiskState.init, defaultConfig])
    (by norm_num)).1

/-- The four rejection messages of `validate_trade_risk`, as tags. -/
inductive RejectReason where
  | invalidStopLoss
  | riskRewardBelowMinimum
  | invalidPositionSize
  | capitalAtRiskExceedsLimit
deriving DecidableEq, Repr

/-- The `RiskMetrics` dataclass. -/
structure RiskMetrics where
  position_size : ℚ
  risk_amount : ℚ
  reward_amount : ℚ
  risk_reward_ratio : ℚ
  capital_at_risk_pct : ℚ
  is_within_limits : Bool
  rejection_reason : Option RejectReason
deriving DecidableEq, Repr

/-- `RiskManager.validate_trade_risk`.  First applies the daily-reset check,
then runs the rejection cascade of the source; returns the possibly-reset
state together with the metrics.  The `confidence` argument is accepted but,
as in the source body, not used by any check. -/
def validate_trade_risk (st : RiskState) (today : ℕ) (entry_price stop_loss target_price : ℚ)
    (confidence : ℚ) : RiskState × RiskMetrics :=
  let st := reset_daily_metrics today st
  let risk_per_share := |entry_price - stop_loss|
  let reward_per_share := |target_price - entry_price|
  if risk_per_share ≤ 0 then
    (st, ⟨0, 0, 0, 0, 0, false, some .invalidStopLoss⟩)
  else
    let risk_reward_ratio := reward_per_share / risk_per_share
    if risk_reward_ratio < st.config.minRiskReward then
      (st, ⟨0, 0, 0, risk_reward_ratio, 0, false, some .riskRewardBelowMinimum⟩)
    else
      let qr := calculate_position_size st entry_price stop_loss none
      if qr.1 ≤ 0 then
        (st, ⟨0, 0, 0, risk_reward_ratio, 0, false, some .invalidPositionSize⟩)
      else
        let reward_amount := (qr.1 : ℚ) * reward_per_share
        let current_capital := get_current_capital st
        let capital_at_risk_pct := qr.2 / current_capital
        if capital_at_risk_pct > st.config.maxCapitalPerTrade then
          (st, ⟨(qr.1 : ℚ), qr.2, reward_amount, risk_reward_ratio, capital_at_risk_pct,
                false, some .capitalAtRiskExceedsLimit⟩)
        else
          (st, ⟨(qr.1 : ℚ), qr.2, reward_amount, risk_reward_ratio, capital_at_risk_pct,
                true, none⟩)

/-- C2: `validate_trade_risk` reports `riskRewardRatio = rewardPerShare /
riskPerShare` whenever the denominator is positive, and rejects exactly in the
priority order: invalid stop (`riskPerShare ≤ 0`), then risk-reward ratio below
the configured minimum, then non-positive quantity, then capital-at-risk
fraction above the per-trade cap; it approves otherwise. -/
theorem c2_validate_trade_risk_cascade (st : RiskState) (today : ℕ)
    (entry stop target confidence : ℚ)
    (m : RiskMetrics) (hm : m = (validate_trade_risk st today entry stop target confidence).2)
    (st' : RiskState) (hst : st' = reset_daily_metrics today st) :
    (0 < |entry - stop| → m.risk_reward_ratio = |target - entry| / |entry - stop|) ∧
    (m.rejection_reason = some .invalidStopLoss ↔ |entry - stop| ≤ 0) ∧
    (m.rejection_reason = some .riskRewardBelowMinimum ↔
        0 < |entry - stop| ∧
        |target - entry| / |entry - stop| < st'.config.minRiskReward) ∧
    (m.rejection_reason = some .invalidPositionSize ↔
        0 < |entry - stop| ∧
        st'.config.minRiskReward ≤ |target - entry| / |entry - stop| ∧
        (calculate_position_size st' entry stop none).1 ≤ 0) ∧
    (m.rejection_reason = some .capitalAtRiskExceedsLimit ↔
        0 < |entry - stop| ∧
        st'.config.minRiskReward ≤ |target - entry| / |entry - stop| ∧
        0 < (calculate_position_size st' entry stop none).1 ∧
        st'.config.maxCapitalPerTrade <
          (calculate_position_size st' entry stop none).2 / get_current_capital st') ∧
    (m.is_within_limits = true ↔ m.rejection_reason = none) := by
  subst hm hst
  simp only [validate_trade_risk]
  split_ifs with h1 h2 h3 h4 <;>
    simp_all [not_le, not_lt, le_of_lt]

/-- Witness for C2 at the module's own test scenario. -/
theorem c2_validate_trade_risk_cascade_witness :
    ((validate_trade_risk demoState 0 2500 2450 2600 (4/5)).2).risk_reward_ratio =
      |(2600 : ℚ) - 2500| / |(2500 : ℚ) - 2450| :=
  (c2_validate_trade_risk_cascade demoState 0 2500 2450 2600 (4/5) _ rfl _ rfl).1
    (by norm_num)

/-- The `risk_status` codes set by `check_trading_allowed`. -/
inductive RiskStatus where
  | normal
  | maxTradesReached
  | maxDailyLosses
  | maxDrawdownExceeded
  | nearMarketClose
deriving DecidableEq, Repr

/-- The `AccountRisk` dataclass. -/
structure AccountRisk where
  total_capital : ℚ
  available_capital : ℚ
  used_capital : ℚ
  daily_pnl : ℚ
  daily_loss_count : ℕ
  max_drawdown_today : ℚ
  active_trades : ℕ
  is_trading_allowed : Bool
  risk_status : RiskStatus
deriving DecidableEq, Repr

/-- `RiskManager.check_trading_allowed`.  `positions` is the list of
unrealized-P&L values of the active positions passed in (the only data the
source reads from them: `len(...)` and each `pos.unrealized_pnl`);
`nearClose` abstracts the clock-reading `is_near_market_close()`.  The
statement order of the source is preserved: `current_capital` is read before
`daily_pnl` is overwritten with the unrealized sum. -/
def check_trading_allowed (st : RiskState) (today : ℕ) (positions : List ℚ)
    (nearClose : Bool) : RiskState × AccountRisk :=
  let st := reset_daily_metrics today st
  let current_capital := get_current_capital st
  let active_trades := positions.length
  let total_unrealized_pnl := positions.sum
  let st := { st with daily_pnl := total_unrealized_pnl }
  let current_drawdown := (st.start_of_day_capital - current_capital) / st.start_of_day_capital
  let st :=
    if current_capital < st.start_of_day_capital then
      { st with max_drawdown_today := max st.max_drawdown_today current_drawdown }
    else st
  let pair :=
    if active_trades ≥ st.config.maxActiveTrades then (false, RiskStatus.maxTradesReached)
    else if st.daily_loss_count ≥ st.config.maxDailyLosses then (false, .maxDailyLosses)
    else if st.max_drawdown_today ≥ st.config.maxDailyDrawdown then (false, .maxDrawdownExceeded)
    else if nearClose then (false, .nearMarketClose)
    else (true, .normal)
  (st,
   { total_capital := st.config.initialCapital
     available_capital := current_capital
     used_capital := st.config.initialCapital - current_capital
     daily_pnl := st.daily_pnl
     daily_loss_count := st.daily_loss_count
     max_drawdown_today := st.max_drawdown_today
     active_trades := active_trades
     is_trading_allowed := pair.1
     risk_status := pair.2 })

/-- C3: `check_trading_allowed` first applies the daily-reset check
(the returned state's `last_reset_date` is `today`), then determines the
snapshot's `risk_status` in priority order MAX_TRADES_REACHED →
MAX_DAILY_LOSSES → MAX_DRAWDOWN_EXCEEDED → NEAR_MARKET_CLOSE → NORMAL, with
`is_trading_allowed` false exactly when the status is not NORMAL; the
MAX_DAILY_LOSSES condition depends only on the loss count, not on the sign of
the daily P&L. -/
theorem c3_check_trading_allowed_priority (st : RiskState) (today : ℕ)
    (positions : List ℚ) (nearClose : Bool)
    (r : AccountRisk) (hr : r = (check_trading_allowed st today positions nearClose).2)
    (stf : RiskState) (hstf : stf = (check_trading_allowed st today positions nearClose).1) :
    (stf.last_reset_date = today) ∧
    (r.risk_status = .maxTradesReached ↔
        positions.length ≥ st.config.maxActiveTrades) ∧
    (r.risk_status = .maxDailyLosses ↔
        positions.length < st.config.maxActiveTrades ∧
        (reset_daily_metrics today st).daily_loss_count ≥ st.config.maxDailyLosses) ∧
    (r.risk_status = .maxDrawdownExceeded ↔
        positions.length < st.config.maxActiveTrades ∧
        (reset_daily_metrics today st).daily_loss_count < st.config.maxDailyLosses ∧
        stf.max_drawdown_today ≥ st.config.maxDailyDrawdown) ∧
    (r.risk_status = .nearMarketClose ↔
        positions.length < st.config.maxActiveTrades ∧
        (reset_daily_metrics today st).daily_loss_count < st.config.maxDailyLosses ∧
        stf.max_drawdown_today < st.config.maxDailyDrawdown ∧
        nearClose = true) ∧
    (r.is_trading_allowed = true ↔ r.risk_status = .normal) := by
  have hconfig : (reset_daily_metrics today st).config = st.config := by
    simp only [reset_daily_metrics]
    split <;> rfl
  have hlast : (reset_daily_metrics today st).last_reset_date = today := by
    simp only [reset_daily_metrics]
    split
    · rfl
    · simp_all
  subst hr hstf
  simp only [check_trading_allowed, hconfig]
  constructor
  · split_ifs <;> simp_all
  · split_ifs <;> simp_all [not_le, not_lt, hlast] <;>
      (intro h1 h2
       rcases ‹_ ∨ _› with h | h
       · exact absurd h1 (not_lt.mpr h)
       · exact absurd h2 (not_lt.mpr h))

/-- A same-day state whose loss count has reached the default cap while the
daily P&L is positive. -/
def lossState : RiskState :=
  { demoState with daily_loss_count := 3, daily_pnl := 500 }

/-- Witness for C3: at the loss cap the status flips to MAX_DAILY_LOSSES even
though the daily P&L is positive. -/
theorem c3_check_trading_allowed_priority_witness :
    (check_trading_allowed lossState 0 [] false).2.risk_status = .maxDailyLosses :=
  ((c3_check_trading_allowed_priority lossState 0 [] false _ rfl _ rfl).2.2.1).mpr
    (by norm_num [reset_daily_metrics, lossState, demoState, RiskState.init, defaultConfig])

/-- The exit-reason strings of `monitor_active_trade`. -/
inductive ExitReason where
  | stopLoss
  | target
  | timeLimit
  | forceExit
deriving DecidableEq, Repr

/-- The `ActiveTrade` dataclass of `poller.py`.  `entry_time` is in seconds. -/
structure ActiveTrade where
  trade_id : String
  symbol : String
  entry_time : ℚ
  entry_price : ℚ
  stop_loss : ℚ
  target_price : ℚ
  quantity : ℤ
  transaction_type : Side
  current_price : ℚ
  unrealized_pnl : ℚ
deriving DecidableEq, Repr

/-- The exit-condition cascade of `monitor_active_trade`: stop loss, then
target, then the 4-hour (14400 s) holding limit, then the global force-exit
check; `forceExitDue` abstracts `should_force_exit()`. -/
def exit_decision (t : ActiveTrade) (current_price now : ℚ)
    (forceExitDue : Bool) : Option ExitReason :=
  if t.transaction_type = .buy ∧ current_price ≤ t.stop_loss then some .stopLoss
  else if t.transaction_type = .sell ∧ current_price ≥ t.stop_loss then some .stopLoss
  else if t.transaction_type = .buy ∧ current_price ≥ t.target_price then some .target
  else if t.transaction_type = .sell ∧ current_price ≤ t.target_price then some .target
  else if now - t.entry_time > 14400 then some .timeLimit
  else if forceExitDue then some .forceExit
  else none

/-- The BUY trade of the spec's exit-priority scenario:
entry 2500, stop 2450, target 2600, entered at time 0. -/
def demoTrade : ActiveTrade :=
  { trade_id := "T1"
    symbol := "RELIANCE"
    entry_time := 0
    entry_price := 2500
    stop_loss := 2450
    target_price := 2600
    quantity := 20
    transaction_type := .buy
    current_price := 2500
    unrealized_pnl := 0 }

set_option maxHeartbeats 1000000 in
/-- C4: one monitoring step evaluates exit conditions in the fixed priority
order stop-loss breach → target reached → 4-hour holding limit → global
force-exit deadline, the first match determining the reason; for the BUY
scenario entry 2500 / stop 2450 / target 2600, a price of exactly 2450 exits
with STOP_LOSS, exactly 2600 with TARGET, and a price strictly between stop
and target after more than 4 hours with TIME_LIMIT. -/
theorem c4_exit_priority (t : ActiveTrade) (p now : ℚ) (force : Bool)
    (d : Option ExitReason) (hd : d = exit_decision t p now force) :
    (d = some .stopLoss ↔
        ((t.transaction_type = .buy ∧ p ≤ t.stop_loss) ∨
         (t.transaction_type = .sell ∧ p ≥ t.stop_loss))) ∧
    (d = some .target ↔
        ¬((t.transaction_type = .buy ∧ p ≤ t.stop_loss) ∨
          (t.transaction_type = .sell ∧ p ≥ t.stop_loss)) ∧
        ((t.transaction_type = .buy ∧ p ≥ t.target_price) ∨
         (t.transaction_type = .sell ∧ p ≤ t.target_price))) ∧
    (d = some .timeLimit ↔
        ¬((t.transaction_type = .buy ∧ p ≤ t.stop_loss) ∨
          (t.transaction_type = .sell ∧ p ≥ t.stop_loss)) ∧
        ¬((t.transaction_type = .buy ∧ p ≥ t.target_price) ∨
          (t.transaction_type = .sell ∧ p ≤ t.target_price)) ∧
        now - t.entry_time > 14400) ∧
    (d = some .forceExit ↔
        ¬((t.transaction_type = .buy ∧ p ≤ t.stop_loss) ∨
          (t.transaction_type = .sell ∧ p ≥ t.stop_loss)) ∧
        ¬((t.transaction_type = .buy ∧ p ≥ t.target_price) ∨
          (t.transaction_type = .sell ∧ p ≤ t.target_price)) ∧
        now - t.entry_time ≤ 14400 ∧ force = true) ∧
    exit_decision demoTrade 2450 100 false = some .stopLoss ∧
    exit_decision demoTrade 2600 100 false = some .target ∧
    exit_decision demoTrade 2500 14401 false = some .timeLimit := by
  subst hd
  have hc1 : exit_decision demoTrade 2450 100 false = some .stopLoss := by
    norm_num [exit_decision, demoTrade]
  have hc2 : exit_decision demoTrade 2600 100 false = some .target := by
    norm_num [exit_decision, demoTrade]
    exact fun h => nomatch h
  have hc3 : exit_decision demoTrade 2500 14401 false = some .timeLimit := by
    norm_num [exit_decision, demoTrade]
    simp
  refine ⟨?_, ?_, ?_, ?_, hc1, hc2, hc3⟩ <;>
    · cases hty : t.transaction_type <;>
        simp only [exit_decision, hty] <;>
        split_ifs <;>
        simp_all [not_le, not_lt] <;>
        (intro h ; linarith)

/-- Witness for C4 at the scenario trade and a stop-loss tick. -/
theorem c4_exit_priority_witness :
    exit_decision demoTrade 2450 100 false = some .stopLoss :=
  (c4_exit_priority demoTrade 2450 100 false _ rfl).2.2.2.2.1

/-- `RiskManager.record_trade_outcome`.  P&L is `(exit−entry)×qty` for BUY and
`(entry−exit)×qty` otherwise; the percentage return divides by
`entry_price * quantity`, and when that product is zero the Python body raises
`ZeroDivisionError`, which the surrounding `except` swallows, returning `{}`
with no state mutation — modelled as `none`. -/
def record_trade_outcome (st : RiskState) (symbol : String) (entry_price exit_price : ℚ)
    (quantity : ℤ) (transaction_type : Side) : Option (RiskState × TradeRecord) :=
  let pnl :=
    if transaction_type = .buy then (exit_price - entry_price) * (quantity : ℚ)
    else (entry_price - exit_price) * (quantity : ℚ)
  if entry_price * (quantity : ℚ) = 0 then none
  else
    let pnl_pct := pnl / (entry_price * (quantity : ℚ)) * 100
    let trade_record : TradeRecord :=
      { symbol := symbol
        entry_price := entry_price
        exit_price := exit_price
        quantity := quantity
        transaction_type := transaction_type
        pnl := pnl
        pnl_pct := pnl_pct
        is_loss := decide (pnl < 0) }
    let st := { st with daily_trades := st.daily_trades ++ [trade_record] }
    let st := { st with daily_pnl := st.daily_pnl + pnl }
    let st :=
      if pnl < 0 then { st with daily_loss_count := st.daily_loss_count + 1 } else st
    some (st, trade_record)

/-- C6 counterexample: at quantity 0 the percentage-return division raises,
the `except` swallows it, and nothing is appended or counted — the returned
state is absent (`none`), contradicting the unconditional "for every
(symbol, entryPrice, exitPrice, quantity, side)" phrasing. -/
theorem c6_record_zero_quantity_counterexample :
    record_trade_outcome demoState "RELIANCE" 2500 2600 0 .buy = none := by
  norm_num [record_trade_outcome]

/-- C6 amended: for every input with `entryPrice × quantity ≠ 0`,
`record_trade_outcome` computes P&L as `(exit−entry)×qty` for BUY and
`(entry−exit)×qty` otherwise, appends the record to `daily_trades`, adds the
P&L to `daily_pnl`, and increments `daily_loss_count` iff the P&L is strictly
negative. -/
theorem c6_record_trade_outcome_updates (st : RiskState) (symbol : String)
    (entry_price exit_price : ℚ) (quantity : ℤ) (side : Side)
    (h : entry_price * (quantity : ℚ) ≠ 0) :
    ∃ st' rec, record_trade_outcome st symbol entry_price exit_price quantity side =
        some (st', rec) ∧
      rec.pnl = (if side = .buy then (exit_price - entry_price) * (quantity : ℚ)
                 else (entry_price - exit_price) * (quantity : ℚ)) ∧
      st'.daily_trades = st.daily_trades ++ [rec] ∧
      st'.daily_pnl = st.daily_pnl + rec.pnl ∧
      st'.daily_loss_count =
        (if rec.pnl < 0 then st.daily_loss_count + 1 else st.daily_loss_count) ∧
      (rec.is_loss = true ↔ rec.pnl < 0) := by
  simp only [record_trade_outcome, if_neg h]
  refine ⟨_, _, rfl, ?_, ?_, ?_, ?_, ?_⟩ <;> split_ifs <;> simp_all

/-- Witness for the amended C6 at the module's own test trade. -/
theorem c6_record_trade_outcome_updates_witness :
    ∃ st' rec, record_trade_outcome demoState "RELIANCE" 2500 2550 10 .buy =
        some (st', rec) ∧
      rec.pnl = (if Side.buy = .buy then ((2550 : ℚ) - 2500) * (10 : ℚ)
                 else ((2500 : ℚ) - 2550) * (10 : ℚ)) ∧
      st'.daily_trades = demoState.daily_trades ++ [rec] ∧
      st'.daily_pnl = demoState.daily_pnl + rec.pnl ∧
      st'.daily_loss_count =
        (if rec.pnl < 0 then demoState.daily_loss_count + 1
         else demoState.daily_loss_count) ∧
      (rec.is_loss = true ↔ rec.pnl < 0) :=
  c6_record_trade_outcome_updates demoState "RELIANCE" 2500 2550 10 .buy (by norm_num)

/-- Calls made against the external collaborators during a poller operation.
`riskAlert` stands for `telegram_notifier.send_risk_alert`, which exists in
the repository; the poller code never invokes it. -/
inductive BrokerCall where
  | exitPosition (symbol : String)
  | forceExitAllPositions
  | placeBracketOrder (symbol : String)
  | riskAlert
deriving DecidableEq, Repr

/-- Scheduler-owned state of `StockPoller`: the monitored symbols with their
`is_active_trade` flags, the active-trade registry, the risk-manager state
and the daily flags. -/
structure PollerState where
  monitored : List (String × Bool)
  active_trades : List ActiveTrade
  risk : RiskState
  daily_screening_done : Bool
  force_exit_triggered : Bool
deriving DecidableEq, Repr

/-- `StockPoller.exit_active_trade`.  Always calls the broker's
`exit_position` (success given by `exitOk`); on success records the outcome
with the risk manager (whose own error handler leaves the risk state
unchanged when the record step fails), deletes the registry entry for the
symbol and clears the symbol's `is_active_trade` flag; on failure it only
logs, leaving all state unchanged. -/
def exit_active_trade (st : PollerState) (t : ActiveTrade) (exitOk : Bool) :
    PollerState × List BrokerCall :=
  if exitOk then
    let risk' :=
      match record_trade_outcome st.risk t.symbol t.entry_price t.current_price
          t.quantity t.transaction_type with
      | some p => p.1
      | none => st.risk
    ({ st with
        risk := risk'
        active_trades := st.active_trades.filter (fun u => u.symbol ≠ t.symbol)
        monitored := st.monitored.map
          (fun sb => if sb.1 = t.symbol then (sb.1, false) else sb) },
     [.exitPosition t.symbol])
  else (st, [.exitPosition t.symbol])

/-- `StockPoller.force_exit_all_trades`: returns immediately when
`force_exit_triggered` is already set; otherwise exits every registered trade
once (iterating over a snapshot of the registry), then invokes the broker's
blanket `force_exit_all_positions` and sets the flag. -/
def force_exit_all_trades (st : PollerState) (exitOk : String → Bool) :
    PollerState × List BrokerCall :=
  if st.force_exit_triggered then (st, [])
  else
    let step := fun (acc : PollerState × List BrokerCall) (t : ActiveTrade) =>
      let r := exit_active_trade acc.1 t (exitOk t.symbol)
      (r.1, acc.2 ++ r.2)
    let res := st.active_trades.foldl step (st, [])
    ({ res.1 with force_exit_triggered := true },
     res.2 ++ [.forceExitAllPositions])

/-- `StockPoller.execute_trade_decision`, reduced to its registry effect: when
the bracket order succeeds (`orderOk`), the new `ActiveTrade` is stored under
its symbol (dict insert-or-overwrite) and the symbol's monitored entry is
flagged as an active trade; on order failure nothing changes. -/
def execute_trade_decision (st : PollerState) (sym : String) (trade : ActiveTrade)
    (orderOk : Bool) : PollerState :=
  if orderOk then
    { st with
        active_trades :=
          if st.active_trades.any (fun u => u.symbol = sym) then
            st.active_trades.map (fun u => if u.symbol = sym then trade else u)
          else st.active_trades ++ [trade]
        monitored := st.monitored.map
          (fun sb => if sb.1 = sym then (sb.1, true) else sb) }
  else st

/-- `StockPoller.poll_inactive_stocks`.  The risk gate
(`check_trading_allowed`) is consulted once, up front, with the current
positions (per the registry ⇔ broker-position invariant, their unrealized
P&Ls); if trading is allowed, every monitored symbol whose snapshot is not an
active trade is analyzed, and each approval (`approve`) with a successful
order (`orderOk`) opens a trade built by the decision engine (`mkTrade`) —
with no re-check of the gate between symbols. -/
def poll_inactive_stocks (st : PollerState) (today : ℕ) (nearClose : Bool)
    (approve : String → Bool) (orderOk : String → Bool)
    (mkTrade : String → ActiveTrade) : PollerState :=
  if st.monitored = [] then st
  else
    let gate := check_trading_allowed st.risk today
      (st.active_trades.map (fun t => t.unrealized_pnl)) nearClose
    let st := { st with risk := gate.1 }
    if gate.2.is_trading_allowed = false then st
    else
      st.monitored.foldl
        (fun s sb =>
          if sb.2 then s
          else if approve sb.1 then
            execute_trade_decision s sb.1 (mkTrade sb.1) (orderOk sb.1)
          else s)
        st

/-- `StockPoller.monitor_active_trade`: with no price available the step does
nothing; otherwise the registry entry's `current_price` and `unrealized_pnl`
are refreshed, the exit cascade is evaluated, and a firing exit condition
triggers `exit_active_trade`. -/
def monitor_active_trade (st : PollerState) (t : ActiveTrade) (price : Option ℚ)
    (now : ℚ) (forceDue : Bool) (exitOk : Bool) : PollerState × List BrokerCall :=
  match price with
  | none => (st, [])
  | some p =>
    let updated := { t with
        current_price := p
        unrealized_pnl :=
          if t.transaction_type = .buy then (p - t.entry_price) * (t.quantity : ℚ)
          else (t.entry_price - p) * (t.quantity : ℚ) }
    let st := { st with active_trades :=
        st.active_trades.map (fun u => if u.symbol = t.symbol then updated else u) }
    match exit_decision t p now forceDue with
    | some _ => exit_active_trade st updated exitOk
    | none => (st, [])

/-- `n` consecutive active-poll ticks on the trade `t` with a constant price,
a failing broker exit, accumulating the broker calls. -/
def failRetries : ℕ → PollerState → ActiveTrade → ℚ → ℚ → Bool →
    PollerState × List BrokerCall
  | 0, st, _, _, _, _ => (st, [])
  | n + 1, st, t, p, now, forceDue =>
      let r := monitor_active_trade st t (some p) now forceDue false
      let rest := failRetries n r.1 t p now forceDue
      (rest.1, r.2 ++ rest.2)

lemma force_exit_fold_calls (exitOk : String → Bool) (L : List ActiveTrade)
    (acc : PollerState × List BrokerCall) :
    (L.foldl (fun acc t =>
        ((exit_active_trade acc.1 t (exitOk t.symbol)).1,
         acc.2 ++ (exit_active_trade acc.1 t (exitOk t.symbol)).2)) acc).2 =
      acc.2 ++ L.map (fun t => BrokerCall.exitPosition t.symbol) := by
  induction L generalizing acc with
  | nil => simp
  | cons t L ih =>
      simp only [List.foldl_cons, List.map_cons, ih]
      have hcall : (exit_active_trade acc.1 t (exitOk t.symbol)).2 =
          [BrokerCall.exitPosition t.symbol] := by
        simp only [exit_active_trade]
        split_ifs <;> rfl
      rw [hcall]
      simp

lemma force_exit_fold_empty (L : List ActiveTrade) (acc : PollerState × List BrokerCall)
    (h : ∀ u ∈ acc.1.active_trades, u.symbol ∈ L.map (fun t => t.symbol)) :
    (L.foldl (fun acc t =>
        ((exit_active_trade acc.1 t true).1,
         acc.2 ++ (exit_active_trade acc.1 t true).2)) acc).1.active_trades = [] := by
  induction L generalizing acc with
  | nil =>
      simp only [List.foldl_nil]
      rcases hcase : acc.1.active_trades with _ | ⟨u, us⟩
      · rfl
      · exact absurd (h u (by simp [hcase])) (by simp)
  | cons t L ih =>
      simp only [List.foldl_cons]
      apply ih
      intro u hu
      have hmem : u ∈ acc.1.active_trades.filter (fun v => v.symbol ≠ t.symbol) := by
        simpa [exit_active_trade] using hu
      rw [List.mem_filter] at hmem
      have := h u hmem.1
      simp only [List.map_cons, List.mem_cons] at this
      rcases this with heq | hin
      · exact absurd heq (by simpa using hmem.2)
      · exact hin

/-- C7: after the force-exit pass has set `force_exit_triggered`, any further
call of `force_exit_all_trades` that day is a no-op — no broker call, registry
and risk state untouched; and a first pass (flag clear, broker exits
succeeding) closes every registered trade exactly once (one `exit_position`
call per trade, in registry order, plus the blanket broker force-exit) and
empties the registry, setting the flag. -/
theorem c7_force_exit_idempotent (st : PollerState)
    (hflag : st.force_exit_triggered = true) :
    (∀ exitOk : String → Bool, force_exit_all_trades st exitOk = (st, [])) ∧
    (∀ st2 : PollerState, st2.force_exit_triggered = false →
       (force_exit_all_trades st2 (fun _ => true)).1.active_trades = [] ∧
       (force_exit_all_trades st2 (fun _ => true)).2 =
         st2.active_trades.map (fun t => BrokerCall.exitPosition t.symbol) ++
           [BrokerCall.forceExitAllPositions] ∧
       (force_exit_all_trades st2 (fun _ => true)).1.force_exit_triggered = true) := by
  constructor
  · intro exitOk
    simp [force_exit_all_trades, hflag]
  · intro st2 h2
    refine ⟨?_, ?_, ?_⟩
    · simp only [force_exit_all_trades, h2, Bool.false_eq_true, if_false]
      exact force_exit_fold_empty st2.active_trades (st2, [])
        (fun u hu => List.mem_map_of_mem _ hu)
    · simp only [force_exit_all_trades, h2, Bool.false_eq_true, if_false]
      have hc := force_exit_fold_calls (fun _ => true) st2.active_trades (st2, [])
      simp only [List.nil_append] at hc
      rw [hc]
    · simp only [force_exit_all_trades, h2, Bool.false_eq_true, if_false]

/-- A poller state at end of day whose force-exit pass has already run. -/
def ex7 : PollerState :=
  { monitored := [("RELIANCE", true)]
    active_trades := [demoTrade]
    risk := demoState
    daily_screening_done := true
    force_exit_triggered := true }

/-- Witness for C7: the second same-day invocation is a no-op. -/
theorem c7_force_exit_idempotent_witness :
    force_exit_all_trades ex7 (fun _ => true) = (ex7, []) :=
  (c7_force_exit_idempotent ex7 rfl).1 (fun _ => true)

/-- The trade that the decision engine opens for symbol `s` in the C5 run. -/
def mkTradeEx (s : String) : ActiveTrade :=
  { demoTrade with trade_id := s, symbol := s }

/-- A mid-day poller state: one open trade, two approved-to-be candidates. -/
def exPoller : PollerState :=
  { monitored := [("A", false), ("B", false)]
    active_trades := [demoTrade]
    risk := demoState
    daily_screening_done := true
    force_exit_triggered := false }

/-- C5 (violated by the code): the risk gate is consulted only once per
inactive-poll pass, so starting one trade below the cap (1 of max 2) with two
approved candidates in the same pass yields 3 active trades — exceeding
`maxActiveTrades`.  Only a pass that starts at or above the cap opens no
trades (last conjunct). -/
theorem c5_max_active_trades_exceeded :
    exPoller.risk.config.maxActiveTrades = 2 ∧
    exPoller.active_trades.length = 1 ∧
    (poll_inactive_stocks exPoller 0 false (fun _ => true) (fun _ => true)
        mkTradeEx).active_trades.length = 3 ∧
    (poll_inactive_stocks { exPoller with
        active_trades := [demoTrade, mkTradeEx "C"] } 0 false (fun _ => true)
        (fun _ => true) mkTradeEx).active_trades.length = 2 := by
  refine ⟨rfl, rfl, ?_, ?_⟩ <;>
    · simp only [poll_inactive_stocks, check_trading_allowed, reset_daily_metrics,
        get_current_capital, execute_trade_decision, exPoller, demoState,
        RiskState.init, defaultConfig, mkTradeEx, demoTrade, List.map_cons,
        List.map_nil, List.sum_cons, List.sum_nil, List.foldl_cons, List.foldl_nil,
        List.length_cons, List.length_nil, List.any_cons, List.any_nil,
        String.reduceEq, reduceCtorEq, reduceIte, List.cons_ne_nil]
      simp
      all_goals norm_num

lemma monitor_fail_step (st : PollerState) (t : ActiveTrade) (p now : ℚ)
    (forceDue : Bool) :
    (monitor_active_trade st t (some p) now forceDue false).1.risk = st.risk ∧
    (monitor_active_trade st t (some p) now forceDue false).1.active_trades.length =
      st.active_trades.length ∧
    ((monitor_active_trade st t (some p) now forceDue false).2 = [] ∨
     (monitor_active_trade st t (some p) now forceDue false).2 =
       [BrokerCall.exitPosition t.symbol]) ∧
    (exit_decision t p now forceDue ≠ none →
      (monitor_active_trade st t (some p) now forceDue false).2 =
        [BrokerCall.exitPosition t.symbol]) := by
  simp only [monitor_active_trade]
  rcases hd : exit_decision t p now forceDue with _ | r <;>
    simp [hd, exit_active_trade]

lemma failRetries_invariants (t : ActiveTrade) (p now : ℚ) (forceDue : Bool) :
    ∀ (n : ℕ) (st : PollerState),
      (failRetries n st t p now forceDue).1.risk = st.risk ∧
      (failRetries n st t p now forceDue).1.active_trades.length =
        st.active_trades.length ∧
      BrokerCall.riskAlert ∉ (failRetries n st t p now forceDue).2 ∧
      (exit_decision t p now forceDue ≠ none →
        (failRetries n st t p now forceDue).2.length = n) := by
  intro n
  induction n with
  | zero => intro st; simp [failRetries]
  | succ n ih =>
      intro st
      obtain ⟨hrisk, hlen, hstep, hfire⟩ := monitor_fail_step st t p now forceDue
      obtain ⟨ihrisk, ihlen, ihalert, ihcount⟩ :=
        ih (monitor_active_trade st t (some p) now forceDue false).1
      refine ⟨?_, ?_, ?_, ?_⟩
      · simp only [failRetries]
        rw [ihrisk, hrisk]
      · simp only [failRetries]
        rw [ihlen, hlen]
      · simp only [failRetries, List.mem_append]
        rintro (hmem | hmem)
        · rcases hstep with h0 | h1 <;> simp_all
        · exact ihalert hmem
      · intro hne
        simp only [failRetries, List.length_append]
        rw [hfire hne, ihcount hne]
        simp [Nat.add_comm]

/-- C9 amended: when the broker's exit call fails, the trade stays in the
registry (same count), no outcome is recorded (risk state unchanged), and the
exit is re-attempted on every subsequent tick indefinitely — one
`exit_position` call per tick with no retry ceiling and no critical-alert
escalation (no `riskAlert` is ever emitted). -/
theorem c9_failed_exit_retries (st : PollerState) (t : ActiveTrade) (p now : ℚ)
    (forceDue : Bool)
    (hfire : exit_decision t p now forceDue ≠ none) :
    (monitor_active_trade st t (some p) now forceDue false).1.risk = st.risk ∧
    (monitor_active_trade st t (some p) now forceDue false).1.active_trades.length =
      st.active_trades.length ∧
    (monitor_active_trade st t (some p) now forceDue false).2 =
      [BrokerCall.exitPosition t.symbol] ∧
    (∀ n : ℕ,
      (failRetries n st t p now forceDue).1.risk = st.risk ∧
      (failRetries n st t p now forceDue).1.active_trades.length =
        st.active_trades.length ∧
      BrokerCall.riskAlert ∉ (failRetries n st t p now forceDue).2 ∧
      (failRetries n st t p now forceDue).2.length = n) := by
  obtain ⟨h1, h2, _, h4⟩ := monitor_fail_step st t p now forceDue
  refine ⟨h1, h2, h4 hfire, ?_⟩
  intro n
  obtain ⟨g1, g2, g3, g4⟩ := failRetries_invariants t p now forceDue n st
  exact ⟨g1, g2, g3, g4 hfire⟩

/-- The C9 scenario state: one open BUY trade, registry flag set. -/
def ex9 : PollerState :=
  { monitored := [("RELIANCE", true)]
    active_trades := [demoTrade]
    risk := demoState
    daily_screening_done := true
    force_exit_triggered := false }

/-- C9 counterexample: 1000 consecutive ticks with a firing stop-loss and a
failing broker exit leave the position open and the risk state untouched,
make 1000 exit attempts, and never emit a risk alert — there is no retry
ceiling and no critical-alert escalation in the code. -/
theorem c9_no_retry_ceiling_counterexample :
    (failRetries 1000 ex9 demoTrade 2450 100 false).1.active_trades.length = 1 ∧
    (failRetries 1000 ex9 demoTrade 2450 100 false).1.risk = demoState ∧
    (failRetries 1000 ex9 demoTrade 2450 100 false).2.length = 1000 ∧
    BrokerCall.riskAlert ∉ (failRetries 1000 ex9 demoTrade 2450 100 false).2 := by
  have hfire : exit_decision demoTrade 2450 100 false ≠ none := by
    norm_num [exit_decision, demoTrade]
    exact fun h => nomatch h
  obtain ⟨g1, g2, g3, g4⟩ := failRetries_invariants demoTrade 2450 100 false 1000 ex9
  exact ⟨g2, g1, g4 hfire, g3⟩

/-- Witness for the amended C9 at the scenario inputs. -/
theorem c9_failed_exit_retries_witness :
    (monitor_active_trade ex9 demoTrade (some 2450) 100 false false).2 =
      [BrokerCall.exitPosition demoTrade.symbol] :=
  (c9_failed_exit_retries ex9 demoTrade 2450 100 false
    (by norm_num [exit_decision, demoTrade]
        exact fun h => nomatch h)).2.2.1

lemma reset_last (today : ℕ) (st : RiskState) :
    (reset_daily_metrics today st).last_reset_date = today := by
  simp only [reset_daily_metrics]
  split <;> simp_all

/-- A same-day risk state carrying realized P&L from a recorded trade. -/
def ex8 : RiskState := { demoState with daily_pnl := 100 }

/-- C8 counterexample: with no date change (`last_reset_date` already today),
the risk check `check_trading_allowed` still overwrites the daily P&L (100,
from realized trades) with the unrealized sum of the positions passed in
(here 0) — a daily field changes on a day without a reset. -/
theorem c8_same_day_overwrite_counterexample :
    ex8.last_reset_date = 0 ∧ ex8.daily_pnl = 100 ∧
    (check_trading_allowed ex8 0 [] false).1.daily_pnl = 0 := by
  refine ⟨rfl, rfl, ?_⟩
  norm_num [check_trading_allowed, reset_daily_metrics, get_current_capital,
    ex8, demoState, RiskState.init, defaultConfig]

/-- C8 amended: the daily reset fires exactly once per calendar date change —
a same-day reset check is the identity, a date change clears all daily fields
and recomputes `start_of_day_capital`, re-running the check is idempotent,
every risk check applies the reset first (`last_reset_date` is `today`
afterwards), `validate_trade_risk` leaves the state untouched on a same-day
check, and a process restart (`RiskState.init`) lands already reset for its
day; but `check_trading_allowed` overwrites `daily_pnl` with the positions'
unrealized sum even without a date change. -/
theorem c8_daily_reset_discipline (st : RiskState) (today : ℕ) (c : Config)
    (entry stop target conf : ℚ) (positions : List ℚ) (nearClose : Bool) :
    (st.last_reset_date = today → reset_daily_metrics today st = st) ∧
    (today ≠ st.last_reset_date →
       reset_daily_metrics today st =
         { config := st.config
           daily_trades := []
           daily_pnl := 0
           daily_loss_count := 0
           max_drawdown_today := 0
           start_of_day_capital := st.config.initialCapital
           last_reset_date := today }) ∧
    (reset_daily_metrics today (reset_daily_metrics today st) =
       reset_daily_metrics today st) ∧
    ((validate_trade_risk st today entry stop target conf).1.last_reset_date = today) ∧
    ((check_trading_allowed st today positions nearClose).1.last_reset_date = today) ∧
    (st.last_reset_date = today →
       (validate_trade_risk st today entry stop target conf).1 = st) ∧
    ((check_trading_allowed st today positions nearClose).1.daily_pnl = positions.sum) ∧
    ((RiskState.init c today).last_reset_date = today ∧
       reset_daily_metrics today (RiskState.init c today) = RiskState.init c today) := by
  have hsame : ∀ s : RiskState, s.last_reset_date = today →
      reset_daily_metrics today s = s := by
    intro s hs
    simp [reset_daily_metrics, hs]
  have hvalidate_fst : (validate_trade_risk st today entry stop target conf).1 =
      reset_daily_metrics today st := by
    simp only [validate_trade_risk]
    split_ifs <;> rfl
  refine ⟨hsame st, ?_, ?_, ?_, ?_, ?_, ?_, rfl, hsame _ rfl⟩
  · intro h
    cases st with
    | mk config daily_trades daily_pnl daily_loss_count max_drawdown_today
        start_of_day_capital last_reset_date =>
      simp_all [reset_daily_metrics, get_current_capital]
  · exact hsame _ (reset_last today st)
  · rw [hvalidate_fst]
    exact reset_last today st
  · simp only [check_trading_allowed]
    split_ifs <;> simp [reset_last]
  · intro h
    rw [hvalidate_fst]
    exact hsame st h
  · simp only [check_trading_allowed]
    split_ifs <;> rfl

/-- A state carrying a prior day's losses, about to roll over. -/
def ex10 : RiskState := { demoState with daily_pnl := -5000 }

/-- C10: after every date-change reset, `start_of_day_capital` equals the
static initial capital exactly — `daily_pnl` is zeroed before
`start_of_day_capital` is recomputed as `initialCapital + daily_pnl` — so
intraday drawdown is always measured against the initial capital, never the
prior day's closing capital. -/
theorem c10_reset_start_of_day_capital (st : RiskState) (today : ℕ)
    (h : today ≠ st.last_reset_date) :
    (reset_daily_metrics today st).start_of_day_capital = st.config.initialCapital ∧
    (reset_daily_metrics today st).daily_pnl = 0 := by
  simp [reset_daily_metrics, get_current_capital, h]

/-- Witness for C10: after a rollover from a losing day (P&L −5000), the
start-of-day capital is the static initial capital, not 95000. -/
theorem c10_reset_start_of_day_capital_witness :
    (reset_daily_metrics 1 ex10).start_of_day_capital = ex10.config.initialCapital :=
  (c10_reset_start_of_day_capital ex10 1 (by decide)).1

/-- Witness for the amended C8: the same-day reset is the identity. -/
theorem c8_daily_reset_discipline_witness :
    reset_daily_metrics 0 demoState = demoState :=
  (c8_daily_reset_discipline demoState 0 defaultConfig 0 0 0 0 [] false).1 rfl

end TraderBot
